import Mathlib

/-!
Verification development for the `backend` repository (a scheduled
news-generation pipeline in `src/api.py`).

The Python code is shallowly embedded: Python strings are modelled as
`PyStr := List Char` (a Python `str` is a sequence of code points), Python
floats arising from Jaccard similarity are modelled as exact rationals
(the reachable similarity values are quotients of naturals at most 20, far
apart relative to double rounding error, so `ℚ` comparison agrees with the
float comparison the code performs), and the Supabase `articles` table is
modelled as a list of typed rows with upsert keyed on `id`.

The regular-expression calls of `api.py` are executed by a small
backtracking matcher (`Re`, `reFindAll`, `reSearch`, `reSub`) that follows
Python `re` semantics for the constructs the patterns use: ordered
alternation, greedy and lazy repetition, character classes, anchors with
and without MULTILINE, DOTALL, IGNORECASE (ASCII), word boundaries, and a
single capturing group.  All source texts handled in this development are
ASCII, where these semantics coincide with CPython's.
-/

/-- A Python string: a sequence of code points. -/
abbrev PyStr := List Char

/-- Shorthand for turning a Lean string literal into the model's string type. -/
def lit (s : String) : PyStr := s.data

/-- Python whitespace characters as used by `str.split()`, `str.strip()` and
the regex class `\s` (ASCII fragment; the texts in this development are
ASCII). -/
def wsChars : List Char := [' ', '\t', '\n', '\r', Char.ofNat 11, Char.ofNat 12]

/-- Is `c` a Python (ASCII) whitespace character? -/
def isWs (c : Char) : Bool := wsChars.contains c

/-- Python `s.lstrip(set)`: drop the longest leading run of characters from
`set`. -/
def pyLstripBy (s : PyStr) (set : List Char) : PyStr :=
  s.dropWhile (fun c => set.contains c)

/-- Python `s.rstrip(set)`: drop the longest trailing run of characters from
`set`.  Defined by direct recursion so that proofs can peel characters off
the front. -/
def pyRstripBy : PyStr → List Char → PyStr
  | [], _ => []
  | a :: s, set =>
    let r := pyRstripBy s set
    if r = [] ∧ set.contains a then [] else a :: r

/-- Python `s.strip(set)`. -/
def pyStripBy (s : PyStr) (set : List Char) : PyStr :=
  pyRstripBy (pyLstripBy s set) set

/-- Python `s.strip()` (whitespace strip). -/
def pyStripWs (s : PyStr) : PyStr := pyStripBy s wsChars

/-- Python `s.lower()` (ASCII case mapping; the relevant texts are ASCII). -/
def pyLower (s : PyStr) : PyStr := s.map Char.toLower

/-- Python `s.startswith(pre)`. -/
def pyStarts (pre s : PyStr) : Bool := pre.isPrefixOf s

/-- Python `s.endswith(suf)`. -/
def pyEnds (suf s : PyStr) : Bool := suf.isSuffixOf s

/-- Index of the first occurrence of `sep` in `s` (Python `s.find(sep)` for
a `sep` known to occur; `none` when `sep` does not occur). -/
def findSub : (sep s : PyStr) → Option Nat
  | sep, s =>
    if sep.isPrefixOf s then some 0
    else match s with
      | [] => none
      | _ :: s' => (findSub sep s').map (· + 1)

/-- Python `needle in hay` for strings (substring test). -/
def pyIn (needle hay : PyStr) : Bool := (findSub needle hay).isSome

/-- Fuel-driven worker for `pySplitOn`; the fuel `s.length + 1` always
suffices for a non-empty separator. -/
def pySplitOnLoop (sep : PyStr) : Nat → PyStr → List PyStr
  | 0, s => [s]
  | fuel + 1, s =>
    match findSub sep s with
    | none => [s]
    | some i => s.take i :: pySplitOnLoop sep fuel (s.drop (i + sep.length))

/-- Python `s.split(sep)` for a non-empty separator. -/
def pySplitOn (sep s : PyStr) : List PyStr := pySplitOnLoop sep (s.length + 1) s

/-- Python `s.split(sep, 1)` (at most one split, at the first occurrence). -/
def pySplit1 (sep s : PyStr) : List PyStr :=
  match findSub sep s with
  | none => [s]
  | some i => [s.take i, s.drop (i + sep.length)]

/-- Python `sep.join(parts)`. -/
def pyJoin (sep : PyStr) (parts : List PyStr) : PyStr :=
  List.intercalate sep parts

/-- Python `s.replace(old, new)` for non-empty `old`: non-overlapping
left-to-right replacement, which coincides with split-then-join. -/
def pyReplace (s old new : PyStr) : PyStr := pyJoin new (pySplitOn old s)

/-- Fuel-driven worker for `pySplitWs`. -/
def pySplitWsLoop : Nat → PyStr → List PyStr
  | 0, _ => []
  | fuel + 1, s =>
    match s.dropWhile isWs with
    | [] => []
    | t => t.takeWhile (fun c => ¬ isWs c) ::
        pySplitWsLoop fuel (t.dropWhile (fun c => ¬ isWs c))

/-- Python `s.split()` with no argument: split on whitespace runs,
discarding empty pieces. -/
def pySplitWs (s : PyStr) : List PyStr := pySplitWsLoop (s.length + 1) s

/-- Python `s.rsplit(' ', 1)[0]`: everything before the last space, or the
whole string when it has no space. -/
def pyRsplitSpaceHead (s : PyStr) : PyStr :=
  if s.contains ' ' then ((s.reverse.dropWhile (fun c => ¬ (c = ' '))).drop 1).reverse
  else s

/-- Lexicographic `≤` on strings via code points (used to model the
database `order by created_at desc`, where the stored values are ISO
timestamp strings, on which this order is chronological). -/
def pyStrLe : PyStr → PyStr → Bool
  | [], _ => true
  | _ :: _, [] => false
  | a :: s, b :: t =>
    if a.toNat < b.toNat then true
    else if b.toNat < a.toNat then false
    else pyStrLe s t

/-- Insert `x` into a sorted list: before the first element `y` with
`le x y`.  On ties `x` stays in front, which makes `pySort` stable. -/
def pyInsertSorted (le : α → α → Bool) (x : α) : List α → List α
  | [] => [x]
  | y :: ys => if le x y then x :: y :: ys else y :: pyInsertSorted le x ys

/-- Stable sort with respect to a boolean total preorder `le`, modelling
Python's `list.sort` / `sorted` (which are stable; a stable sort is
determined up to extensional equality, so insertion sort is a faithful
model of Python's timsort).  `list.sort(key=k, reverse=True)` is
`pySort (fun a b => k b ≤ k a)`. -/
def pySort (le : α → α → Bool) : List α → List α
  | [] => []
  | x :: xs => pyInsertSorted le x (pySort le xs)

/-!
## A small backtracking regex engine (Python `re` semantics)

Abstract syntax for the fragment of Python regular expressions used by
`api.py`.  `{m,}` and `+` are desugared with `reSeqN`/`rePlus`; `(?:...)`
is just grouping of the AST; the patterns of `api.py` contain at most one
capturing group.
-/

/-- An item of a character class: a single character or an inclusive range. -/
inductive ClsItem where
  | ch (c : Char)
  | range (lo hi : Char)

/-- Regular-expression abstract syntax. -/
inductive Re where
  | eps
  | lit (c : Char)
  | cls (neg : Bool) (items : List ClsItem)
  | dot
  | seq (r1 r2 : Re)
  | alt (r1 r2 : Re)
  | star (greedy : Bool) (r : Re)
  | opt (greedy : Bool) (r : Re)
  | group (r : Re)
  | bol
  | eol
  | wordB

/-- Regex flags: `re.IGNORECASE`, `re.MULTILINE`, `re.DOTALL`. -/
structure ReFlags where
  ignoreCase : Bool := false
  multiline : Bool := false
  dotAll : Bool := false

/-- No flags. -/
def noFlags : ReFlags := {}

/-- Python `\w` (ASCII fragment): letters, digits, underscore. -/
def isWordChar (c : Char) : Bool :=
  (('a' ≤ c ∧ c ≤ 'z') ∨ ('A' ≤ c ∧ c ≤ 'Z') ∨ ('0' ≤ c ∧ c ≤ '9') ∨ c = '_')

/-- Word-character test on an optional character (`none` = outside the text). -/
def isWordO : Option Char → Bool
  | none => false
  | some c => isWordChar c

/-- Does character-class item `it` match `c` literally? -/
def clsItemMatch (it : ClsItem) (c : Char) : Bool :=
  match it with
  | .ch c0 => c0 = c
  | .range lo hi => lo ≤ c ∧ c ≤ hi

/-- Does a character class match `c`, honouring IGNORECASE the way Python
does (a character matches if it, its lower-case or its upper-case form is
in the class)? -/
def clsMatch (fl : ReFlags) (items : List ClsItem) (c : Char) : Bool :=
  items.any (fun it =>
    clsItemMatch it c ∨
    (fl.ignoreCase ∧ (clsItemMatch it c.toLower ∨ clsItemMatch it c.toUpper)))

/-- Literal-character match, honouring IGNORECASE. -/
def litMatch (fl : ReFlags) (p c : Char) : Bool :=
  if fl.ignoreCase then p.toLower = c.toLower else p = c

/-- Structural size of a regex, used to compute sufficient matcher fuel. -/
def reSize : Re → Nat
  | .eps | .lit _ | .cls _ _ | .dot | .bol | .eol | .wordB => 1
  | .seq r1 r2 | .alt r1 r2 => reSize r1 + reSize r2 + 1
  | .star _ r | .opt _ r | .group r => reSize r + 1

/--
The backtracking matcher, in continuation-passing style.

`mtch fl fuel r prev s cap k` tries to match `r` at the start of `s`;
`prev` is the character just before `s` in the full subject (for `^`, `$`
and `\b`), `cap` the capture recorded so far.  On each way of matching,
the continuation `k` receives the new `prev`, the rest of the subject and
the capture; the first way for which `k` succeeds wins, which yields
Python's ordered-alternation / greedy / lazy behaviour.  A repeated
sub-expression that matches the empty string is not iterated (as in
Python, where an empty repeat ends the repetition).  `fuel` bounds the
depth of the recursion; `mtchFuel` below always suffices, since every
recursive call either descends in the AST or strictly consumes input.
-/
def mtch (fl : ReFlags) :
    Nat → Re → Option Char → PyStr → Option PyStr →
    (Option Char → PyStr → Option PyStr → Option (PyStr × Option PyStr)) →
    Option (PyStr × Option PyStr)
  | 0, _, _, _, _, _ => none
  | _ + 1, .eps, prev, s, cap, k => k prev s cap
  | _ + 1, .lit c, _, s, cap, k =>
    match s with
    | [] => none
    | c' :: s' => if litMatch fl c c' then k (some c') s' cap else none
  | _ + 1, .cls neg items, _, s, cap, k =>
    match s with
    | [] => none
    | c' :: s' =>
      let m := clsMatch fl items c'
      if (if neg then ¬ m else m) then k (some c') s' cap else none
  | _ + 1, .dot, _, s, cap, k =>
    match s with
    | [] => none
    | c' :: s' => if fl.dotAll ∨ ¬ (c' = '\n') then k (some c') s' cap else none
  | fuel + 1, .seq r1 r2, prev, s, cap, k =>
    mtch fl fuel r1 prev s cap (fun p' s' c' => mtch fl fuel r2 p' s' c' k)
  | fuel + 1, .alt r1 r2, prev, s, cap, k =>
    match mtch fl fuel r1 prev s cap k with
    | some res => some res
    | none => mtch fl fuel r2 prev s cap k
  | fuel + 1, .opt greedy r1, prev, s, cap, k =>
    if greedy then
      match mtch fl fuel r1 prev s cap k with
      | some res => some res
      | none => k prev s cap
    else
      match k prev s cap with
      | some res => some res
      | none => mtch fl fuel r1 prev s cap k
  | fuel + 1, .star greedy r1, prev, s, cap, k =>
    if greedy then
      match mtch fl fuel r1 prev s cap (fun p' s' c' =>
          if s'.length = s.length then k p' s' c'
          else mtch fl fuel (.star greedy r1) p' s' c' k) with
      | some res => some res
      | none => k prev s cap
    else
      match k prev s cap with
      | some res => some res
      | none =>
        mtch fl fuel r1 prev s cap (fun p' s' c' =>
          if s'.length = s.length then none
          else mtch fl fuel (.star greedy r1) p' s' c' k)
  | fuel + 1, .group r1, prev, s, cap, k =>
    mtch fl fuel r1 prev s cap (fun p' s' _ =>
      k p' s' (some (s.take (s.length - s'.length))))
  | _ + 1, .bol, prev, s, cap, k =>
    if prev = none ∨ (fl.multiline ∧ prev = some '\n') then k prev s cap else none
  | _ + 1, .eol, prev, s, cap, k =>
    match s with
    | [] => k prev s cap
    | c' :: s' =>
      if c' = '\n' ∧ (fl.multiline ∨ s' = []) then k prev s cap else none
  | _ + 1, .wordB, prev, s, cap, k =>
    if ¬ (isWordO prev = isWordO s.head?) then k prev s cap else none

/-- Fuel that always suffices for `mtch` on regex `r` and subject `s`. -/
def mtchFuel (r : Re) (s : PyStr) : Nat :=
  (reSize r + 2) * (s.length + 3) + 9

/-- Try to match `r` at the very start of `s` (with `prev` the character
before `s`).  Returns `(matched, rest, capture)` for the match Python
would produce at this position. -/
def matchHere (fl : ReFlags) (r : Re) (prev : Option Char) (s : PyStr) :
    Option (PyStr × PyStr × Option PyStr) :=
  match mtch fl (mtchFuel r s) r prev s none (fun _ s' cap => some (s', cap)) with
  | some (s', cap) => some (s.take (s.length - s'.length), s', cap)
  | none => none

/-- Leftmost match of `r` in `s`: returns
`(text before the match, matched text, rest, capture)`. -/
def searchFrom (fl : ReFlags) (r : Re) :
    Option Char → PyStr → Option (PyStr × PyStr × PyStr × Option PyStr)
  | prev, s =>
    match matchHere fl r prev s with
    | some (m, rest, cap) => some ([], m, rest, cap)
    | none =>
      match s with
      | [] => none
      | c :: s' =>
        (searchFrom fl r (some c) s').map
          (fun x => (c :: x.1, x.2.1, x.2.2.1, x.2.2.2))

/-- Python `re.search`: leftmost match in the whole subject. -/
def reSearch (fl : ReFlags) (r : Re) (s : PyStr) :
    Option (PyStr × PyStr × PyStr × Option PyStr) :=
  searchFrom fl r none s

/-- Fuel-driven worker for `reFindAll`: repeatedly search, resuming after
each match (advancing one character after an empty match, as Python
does). -/
def findAllLoop (fl : ReFlags) (r : Re) :
    Nat → Option Char → PyStr → List (PyStr × Option PyStr)
  | 0, _, _ => []
  | fuel + 1, prev, s =>
    match searchFrom fl r prev s with
    | none => []
    | some (_, m, rest, cap) =>
      if m = [] then
        (m, cap) ::
          (match rest with
           | [] => []
           | c :: rest' => findAllLoop fl r fuel (some c) rest')
      else (m, cap) :: findAllLoop fl r fuel m.getLast? rest

/-- Does the regex contain a capturing group? -/
def hasGroup : Re → Bool
  | .eps | .lit _ | .cls _ _ | .dot | .bol | .eol | .wordB => false
  | .seq r1 r2 | .alt r1 r2 => hasGroup r1 ∨ hasGroup r2
  | .star _ r | .opt _ r => hasGroup r
  | .group _ => true

/-- Python `re.findall`: the list of non-overlapping matches from the
left; when the pattern has (exactly) one capturing group the group texts
are returned instead of the whole matches. -/
def reFindAll (fl : ReFlags) (r : Re) (s : PyStr) : List PyStr :=
  (findAllLoop fl r (s.length + 2) none s).map
    (fun x => if hasGroup r then x.2.getD [] else x.1)

/-- Fuel-driven worker for `reSub`. -/
def subLoop (fl : ReFlags) (r : Re) (repl : PyStr) :
    Nat → Option Char → PyStr → PyStr
  | 0, _, s => s
  | fuel + 1, prev, s =>
    match searchFrom fl r prev s with
    | none => s
    | some (pre, m, rest, _) =>
      if m = [] then
        match rest with
        | [] => pre ++ repl
        | c :: rest' => pre ++ repl ++ c :: subLoop fl r repl fuel (some c) rest'
      else pre ++ repl ++ subLoop fl r repl fuel m.getLast? rest

/-- Python `re.sub` with a literal replacement string. -/
def reSub (fl : ReFlags) (r : Re) (repl : PyStr) (s : PyStr) : PyStr :=
  subLoop fl r repl (s.length + 2) none s

/-- `r1 r2 ... rn` as a sequence. -/
def reCat (l : List Re) : Re := l.foldr .seq .eps

/-- A literal string as a regex. -/
def reLit (s : String) : Re := reCat (s.data.map .lit)

/-- Ordered alternation `a|b|...`. -/
def reAlts : List Re → Re
  | [] => .eps
  | [r] => r
  | r :: rs => .alt r (reAlts rs)

/-- `r{n}`: `n` copies of `r` in sequence. -/
def reSeqN : Nat → Re → Re
  | 0, _ => .eps
  | n + 1, r => .seq r (reSeqN n r)

/-- `r+` (greedy). -/
def rePlus (r : Re) : Re := .seq r (.star true r)

/-- `r{n,}` (greedy). -/
def reAtLeast (n : Nat) (r : Re) : Re := .seq (reSeqN n r) (.star true r)

/-!
## The regular expressions of `api.py`

Each definition carries its Python pattern text in the doc comment; the
flags are supplied at the call sites, exactly as in the source.
-/

/-- The class `\s` as class items. -/
def wsItems : List ClsItem := wsChars.map .ch

/-- The class `\s` as a regex. -/
def wsRe : Re := .cls false wsItems

/-- The class `[^\s<>"\)]` (a URL character in the image patterns). -/
def urlChar : Re := .cls true (wsItems ++ [.ch '<', .ch '>', .ch '"', .ch ')'])

/-- The class `[^\s<>"]` (URL character in the Images-section search). -/
def urlCharNP : Re := .cls true (wsItems ++ [.ch '<', .ch '>', .ch '"'])

/-- The apostrophe character. -/
def apos : Char := Char.ofNat 39

/-- The class `["\']`. -/
def quoteCls : Re := .cls false [.ch '"', .ch apos]

/-- The class `[^"]`. -/
def notQuote : Re := .cls true [.ch '"']

/-- `https?://`. -/
def httpProto : Re := reCat [reLit "http", .opt true (.lit 's'), reLit "://"]

/-- `(?:jpg|jpeg|png|gif|webp|svg|bmp)`. -/
def extsMain : Re :=
  reAlts ((["jpg", "jpeg", "png", "gif", "webp", "svg", "bmp"] : List String).map reLit)

/-- `(?:jpg|jpeg|png|gif|webp|svg|bmp|jfif)`. -/
def extsJfif : Re :=
  reAlts ((["jpg", "jpeg", "png", "gif", "webp", "svg", "bmp", "jfif"] : List String).map reLit)

/-- `(?:jpg|jpeg|png|gif|webp)`. -/
def extsShort : Re :=
  reAlts ((["jpg", "jpeg", "png", "gif", "webp"] : List String).map reLit)

/-- `https?://[^\s<>"\)]+\.(?:jpg|jpeg|png|gif|webp|svg|bmp)(?:\?[^\s<>"\)]*)?`. -/
def patImgExt : Re :=
  reCat [httpProto, rePlus urlChar, .lit '.', extsMain,
    .opt true (.seq (.lit '?') (.star true urlChar))]

/-- `https?://[^\s<>"\)]+image[^\s<>"\)]*(?:\.(?:jpg|jpeg|png|gif|webp))?`. -/
def patImgWord : Re :=
  reCat [httpProto, rePlus urlChar, reLit "image", .star true urlChar,
    .opt true (.seq (.lit '.') extsShort)]

/-- `https?://[^\s<>"\)]+photo[^\s<>"\)]*(?:\.(?:jpg|jpeg|png|gif|webp))?`. -/
def patPhotoWord : Re :=
  reCat [httpProto, rePlus urlChar, reLit "photo", .star true urlChar,
    .opt true (.seq (.lit '.') extsShort)]

/-- `image_url["\']?\s*[:=]\s*["\']?(https?://[^\s<>"\)]+)`. -/
def patImageUrlKV : Re :=
  reCat [reLit "image_url", .opt true quoteCls, .star true wsRe,
    .cls false [.ch ':', .ch '='], .star true wsRe, .opt true quoteCls,
    .group (.seq httpProto (rePlus urlChar))]

/-- `image["\']?\s*[:=]\s*["\']?(https?://[^\s<>"\)]+)`. -/
def patImageKV : Re :=
  reCat [reLit "image", .opt true quoteCls, .star true wsRe,
    .cls false [.ch ':', .ch '='], .star true wsRe, .opt true quoteCls,
    .group (.seq httpProto (rePlus urlChar))]

/-- `urlToImage["\']?\s*[:=]\s*["\']?(https?://[^\s<>"\)]+)`. -/
def patUrlToImageKV : Re :=
  reCat [reLit "urlToImage", .opt true quoteCls, .star true wsRe,
    .cls false [.ch ':', .ch '='], .star true wsRe, .opt true quoteCls,
    .group (.seq httpProto (rePlus urlChar))]

/-- `https?://[^\s<>"\)]+/image[s]?/[^\s<>"\)]+`. -/
def patImgPath : Re :=
  reCat [httpProto, rePlus urlChar, reLit "/image", .opt true (.lit 's'),
    .lit '/', rePlus urlChar]

/-- `https?://[^\s<>"\)]+/photo[s]?/[^\s<>"\)]+`. -/
def patPhotoPath : Re :=
  reCat [httpProto, rePlus urlChar, reLit "/photo", .opt true (.lit 's'),
    .lit '/', rePlus urlChar]

/-- `"image_urls"\s*:\s*\[(.*?)\]` (a JSON array of image URLs). -/
def patJsonArr : Re :=
  reCat [reLit "\"image_urls\"", .star true wsRe, .lit ':', .star true wsRe,
    .lit '[', .group (.star false .dot), .lit ']']

/-- `"image_url"\s*:\s*"(https?://[^"]+)"` (a JSON image_url field). -/
def patJsonUrlKV : Re :=
  reCat [reLit "\"image_url\"", .star true wsRe, .lit ':', .star true wsRe,
    .lit '"', .group (.seq httpProto (rePlus notQuote)), .lit '"']

/-- The `image_patterns` list of `parse_article` (source order). -/
def image_patterns : List Re :=
  [patImgExt, patImgWord, patPhotoWord, patImageUrlKV, patImageKV,
   patUrlToImageKV, patImgPath, patPhotoPath, patJsonArr, patJsonUrlKV]

/-- `"(https?://[^"]+)"` (URLs inside a JSON array). -/
def patQuotedUrl : Re :=
  reCat [.lit '"', .group (.seq httpProto (rePlus notQuote)), .lit '"']

/-- `https?://[^\s<>"]+` (URL search in the Images section). -/
def patSectionUrl : Re := .seq httpProto (rePlus urlCharNP)

/-- `^#+\s+(.+)$` (markdown heading; used with MULTILINE). -/
def patHeading : Re :=
  reCat [.bol, rePlus (.lit '#'), rePlus wsRe, .group (rePlus .dot), .eol]

/-- `^(Breaking News|News|Flash News|Update):\s*` (used with IGNORECASE). -/
def patNewsPre : Re :=
  reCat [.bol,
    .group (reAlts [reLit "Breaking News", reLit "News", reLit "Flash News",
      reLit "Update"]),
    .lit ':', .star true wsRe]

/-- `^#+\s*`. -/
def patHashPre : Re := reCat [.bol, rePlus (.lit '#'), .star true wsRe]

/-- `\*+`. -/
def patStars : Re := rePlus (.lit '*')

/-- `^["\']|["\']$`. -/
def patQuoteEdge : Re := .alt (.seq .bol quoteCls) (.seq quoteCls .eol)

/-- `\n{3,}`. -/
def patNl3 : Re := reAtLeast 3 (.lit '\n')

/-- `\b[a-z]{3,}\b` (keyword extraction in `extract_topics`). -/
def patTopicWord : Re :=
  reCat [.wordB, reAtLeast 3 (.cls false [.range 'a' 'z']), .wordB]

/-- The image-URL patterns of the fallback in `generate_article_task`
(source lines 663-671), in source order. -/
def taskFallPatterns : List Re :=
  [reCat [httpProto, rePlus urlChar, .lit '.', extsJfif,
     .opt true (.seq (.lit '?') (.star true urlChar))],
   patImgWord,
   patImgPath,
   patPhotoPath,
   reCat [httpProto, rePlus urlChar, reLit "/media/", rePlus urlChar],
   reCat [httpProto, rePlus urlChar, reLit "/img/", rePlus urlChar],
   reCat [httpProto, rePlus urlChar, reLit "cdn", rePlus urlChar, .lit '.', extsShort]]

/-- The image-URL patterns of the fallback in `save_article`
(source lines 155-160), in source order. -/
def saveFallPatterns : List Re :=
  [patImgExt, patImgWord, patImgPath, patPhotoPath]

/-!
## Data model

`Row` is a row of the Supabase `articles` table (the payload built in
`save_article`); `PyArticle` is the Python article dict flowing through
the pipeline, with `none` for an absent key; `DT` is a wall-clock reading
(`datetime.now()`) at second granularity, which is the granularity the id
format uses.
-/

/-- A source reference `{"name": ..., "url": ...}`. -/
structure SourceRef where
  name : PyStr
  url : PyStr
deriving DecidableEq

/-- A related-article back-reference (id, title, timestamp, similarity). -/
structure RelatedRef where
  id : PyStr
  title : PyStr
  created_at : PyStr
  similarity : ℚ
deriving DecidableEq

/-- A row of the Supabase `articles` table. -/
structure Row where
  id : PyStr
  title : PyStr
  content : PyStr
  content_preview : PyStr
  full_text : PyStr
  created_at : PyStr
  sources : List SourceRef
  images : List PyStr
  topics : List PyStr
  related_articles : List RelatedRef
deriving DecidableEq

/-- A Python article dict; `none` models an absent key. -/
structure PyArticle where
  id : Option PyStr
  title : Option PyStr
  content : Option PyStr
  content_preview : Option PyStr
  full_text : Option PyStr
  created_at : Option PyStr
  sources : Option (List SourceRef)
  images : Option (List PyStr)
  topics : Option (List PyStr)
  related_articles : Option (List RelatedRef)
deriving DecidableEq

/-- A wall-clock reading at second granularity. -/
structure DT where
  year : Nat
  month : Nat
  day : Nat
  hour : Nat
  minute : Nat
  second : Nat
deriving DecidableEq

/-- A clock reading with each field inside the width of its `strftime`
format directive (real calendar values satisfy this). -/
def validDT (t : DT) : Prop :=
  t.year < 10000 ∧ t.month < 100 ∧ t.day < 100 ∧ t.hour < 100 ∧
    t.minute < 100 ∧ t.second < 100

instance : DecidablePred validDT := fun t => by unfold validDT; infer_instance

/-- The decimal digit character of `n % 10`. -/
def digitChar (n : Nat) : Char := Char.ofNat (48 + n % 10)

/-- A number zero-padded to two digits (`%m`, `%d`, `%H`, `%M`, `%S`). -/
def pad2 (n : Nat) : PyStr := [digitChar (n / 10), digitChar n]

/-- A number zero-padded to four digits (`%Y` for calendar years). -/
def pad4 (n : Nat) : PyStr :=
  [digitChar (n / 1000), digitChar (n / 100), digitChar (n / 10), digitChar n]

/-- `datetime.now().strftime("%Y%m%d%H%M%S")`: the article-id format. -/
def fmtTS (t : DT) : PyStr :=
  pad4 t.year ++ pad2 t.month ++ pad2 t.day ++ pad2 t.hour ++
    pad2 t.minute ++ pad2 t.second

/-- `datetime.now().isoformat()` at the model's second granularity (the
code only compares this string for truthiness and takes its first ten
characters, the date part, which microseconds do not affect). -/
def fmtISO (t : DT) : PyStr :=
  pad4 t.year ++ lit "-" ++ pad2 t.month ++ lit "-" ++ pad2 t.day ++ lit "T" ++
    pad2 t.hour ++ lit ":" ++ pad2 t.minute ++ lit ":" ++ pad2 t.second

/-!
## `generate_content_preview` (api.py lines 220-287)
-/

/--
The sentence loop of `generate_content_preview` (lines 242-259), for a
paragraph longer than `max_chars_per_line`.  State: accumulated preview
lines, their total characters, the current line, and whether the loop was
exited by `break`.  Note the source's `break` fires after appending
`current_line` without resetting it, so the caller can append the same
line a second time — the translation preserves this.
-/
def gcpSentLoop (maxL maxC maxTotal : Nat) :
    List PyStr → List PyStr × Nat × PyStr × Bool → List PyStr × Nat × PyStr × Bool
  | [], st => st
  | sent :: rest, (plines, total, cur, broke) =>
    if broke then (plines, total, cur, broke)
    else if cur.length + sent.length + 2 ≤ maxC then
      gcpSentLoop maxL maxC maxTotal rest
        (plines, total, if cur = [] then sent else cur ++ lit ". " ++ sent, false)
    else if cur = [] then
      gcpSentLoop maxL maxC maxTotal rest (plines, total, sent, false)
    else
      let plines' := plines ++ [cur]
      let total' := total + cur.length
      if maxL ≤ plines'.length ∨ maxTotal ≤ total' then (plines', total', cur, true)
      else gcpSentLoop maxL maxC maxTotal rest (plines', total', sent, false)

/-- Sentence-wise processing of one over-long paragraph, including the
post-loop append of lines 258-259. -/
def gcpProcessLong (maxL maxC maxTotal : Nat) (para : PyStr)
    (plines : List PyStr) (total : Nat) : List PyStr × Nat :=
  match gcpSentLoop maxL maxC maxTotal (pySplitOn (lit ". ") para) (plines, total, [], false) with
  | (plines', total', cur, _) =>
    if ¬ (cur = []) ∧ plines'.length < maxL then (plines' ++ [cur], total' + cur.length)
    else (plines', total')

/-- The paragraph loop of `generate_content_preview` (lines 235-266). -/
def gcpParaLoop (maxL maxC maxTotal : Nat) :
    List PyStr → List PyStr × Nat → List PyStr × Nat
  | [], st => st
  | para :: rest, (plines, total) =>
    let p := pyJoin (lit " ") (pySplitWs para)
    let st :=
      if maxC < p.length then gcpProcessLong maxL maxC maxTotal p plines total
      else (plines ++ [p], total + p.length)
    if maxL ≤ st.1.length ∨ maxTotal ≤ st.2 then st
    else gcpParaLoop maxL maxC maxTotal rest st

/-- The final length guard `preview[:max_total].rsplit(' ', 1)[0] + '...'`
(lines 270-271 and 284-285). -/
def truncPreview (maxTotal : Nat) (p : PyStr) : PyStr :=
  if maxTotal < p.length then pyRsplitSpaceHead (p.take maxTotal) ++ lit "..."
  else p

/-- `generate_content_preview(content, max_lines, max_chars_per_line)`. -/
def generate_content_preview (content : PyStr) (max_lines max_chars_per_line : Nat) : PyStr :=
  if content = [] then lit "No preview available"
  else
    let maxTotal := max_lines * max_chars_per_line
    let paragraphs := ((pySplitOn (lit "\n\n") content).map pyStripWs).filter (fun p => ¬ (p = []))
    if ¬ (paragraphs = []) then
      let st := gcpParaLoop max_lines max_chars_per_line maxTotal
        (paragraphs.take max_lines) ([], 0)
      truncPreview maxTotal (pyJoin (lit " ") st.1)
    else
      let ps := (((pySplitOn (lit ". ") content).take max_lines).map pyStripWs).filter
        (fun p => ¬ (p = []))
      truncPreview maxTotal (pyJoin (lit ". ") ps)

/-!
## `extract_topics` and `find_similar_articles` (api.py lines 289-336)
-/

/-- The stop-word set of `extract_topics` (line 296). -/
def stop_words : List PyStr :=
  (["the", "a", "an", "and", "or", "but", "in", "on", "at", "to", "for", "of",
    "with", "by", "is", "are", "was", "were", "been", "be", "have", "has",
    "had", "do", "does", "did", "will", "would", "could", "should", "may",
    "might", "must", "can", "this", "that", "these", "those", "i", "you",
    "he", "she", "it", "we", "they", "what", "which", "who", "when", "where",
    "why", "how"] : List String).map lit

/-- `collections.Counter` over a word list: pairs (word, count) in order of
first occurrence. -/
def countFreq (ws : List PyStr) : List (PyStr × Nat) :=
  ws.foldl (fun acc w =>
    if acc.any (fun p => p.1 = w) then
      acc.map (fun p => if p.1 = w then (p.1, p.2 + 1) else p)
    else acc ++ [(w, 1)]) []

/-- `Counter.most_common(n)`: stable sort by descending count, first `n`. -/
def most_common (l : List (PyStr × Nat)) (n : Nat) : List (PyStr × Nat) :=
  (pySort (fun a b => b.2 ≤ a.2) l).take n

/-- `extract_topics(title, content)`. -/
def extract_topics (title content : PyStr) : List PyStr :=
  let text := pyLower (title ++ lit " " ++ content)
  let words := (reFindAll noFlags patTopicWord text).filter
    (fun w => ¬ stop_words.contains w)
  (most_common (countFreq words) 10).map (fun p => p.1)

/-- An entry of the list built by `find_similar_articles`.  The Python
`common_topics` is `list(set & set)` in unspecified set-iteration order, so
it is modelled as the finite set itself. -/
structure SimEntry where
  article : Row
  similarity : ℚ
  common_topics : Finset PyStr
deriving DecidableEq

/-- `find_similar_articles(new_title, new_content, existing_articles,
similarity_threshold)`.  The float division is modelled exactly in `ℚ`. -/
def find_similar_articles (new_title new_content : PyStr)
    (existing_articles : List Row) (similarity_threshold : ℚ) : List SimEntry :=
  let new_topics := (extract_topics new_title new_content).toFinset
  let entries := existing_articles.filterMap (fun article =>
    let existing_topics := (extract_topics article.title article.content).toFinset
    if 0 < new_topics.card ∧ 0 < existing_topics.card then
      let intersection := (new_topics ∩ existing_topics).card
      let union := (new_topics ∪ existing_topics).card
      -- float `intersection / union`, exactly: `mkRat intersection union`
      -- is the rational `intersection / union` (`Rat.mkRat_eq_div`), in a
      -- form the kernel can evaluate.
      let similarity : ℚ := if 0 < union then mkRat intersection union else 0
      if similarity_threshold ≤ similarity then
        some ⟨article, similarity, new_topics ∩ existing_topics⟩
      else none
    else none)
  pySort (fun a b => b.similarity ≤ a.similarity) entries

/-!
## `parse_article` (api.py lines 338-593)
-/

/-- The strip set `'"\'.,;'` of line 386. -/
def parseStripSet : List Char := ['"', apos, '.', ',', ';']

/-- The rstrip set `'.,;)\'"'` of lines 434. -/
def sectRstripSet : List Char := ['.', ',', ';', ')', apos, '"']

/-- The rstrip set `'.,;)\'"<>'` of lines 131, 166, 457, 679. -/
def trailRstripSet : List Char := ['.', ',', ';', ')', apos, '"', '<', '>']

/-- Source extraction, lines 345-363. -/
def parseSources (article_text : PyStr) : List SourceRef :=
  if pyIn (lit "Sources:") article_text ∨ pyIn (lit "Source:") article_text then
    let sect0 :=
      if pyIn (lit "Sources:") article_text then
        (pySplitOn (lit "Sources:") article_text).getLastD []
      else []
    let sect :=
      if sect0 = [] then
        (if pyIn (lit "Source:") article_text then
          (pySplitOn (lit "Source:") article_text).getLastD []
        else [])
      else sect0
    (pySplitOn (lit "\n") sect).foldl (fun acc line0 =>
      let line := pyStripWs line0
      if ¬ (line = []) ∧ (pyIn (lit "http") line ∨ pyIn (lit "www.") line) then
        if pyIn (lit " - ") line then
          let parts := pySplit1 (lit " - ") line
          let source_name := pyStripWs (pyReplace (parts.headD []) (lit "Source:") [])
          let source_url := pyStripWs (parts.getD 1 [])
          acc ++ [⟨source_name, source_url⟩]
        else if pyIn (lit "http") line then
          let url0 := (pySplitOn (lit "http") line).getD 1 line
          let url := if pyStarts (lit "http") url0 then url0 else lit "http" ++ url0
          acc ++ [⟨lit "Source", url⟩]
        else acc
      else acc) []
  else []

/-- The looks-like-an-image test of lines 390-391. -/
def parseImgKeywordOk (u : PyStr) : Bool :=
  let lu := pyLower u
  ((([".jpg", ".jpeg", ".png", ".gif", ".webp", ".svg", "/image", "/photo",
      "image", "photo"] : List String).map lit).any (fun e => pyIn e lu)) ∨
  (((["imgur", "flickr", "unsplash", "pexels", "getty", "cdn", "media",
      "static"] : List String).map lit).any (fun d => pyIn d lu))

/-- The image-pattern loop of lines 380-392. -/
def imagesFromPatterns (article_text : PyStr) : List PyStr :=
  image_patterns.foldl (fun images pat =>
    (reFindAll { ignoreCase := true } pat article_text).foldl (fun images m =>
      let img_url := pyStripBy m parseStripSet
      if pyStarts (lit "http") img_url ∧ ¬ images.contains img_url then
        if parseImgKeywordOk img_url then images ++ [img_url] else images
      else images) images) []

/-- The JSON-structure extraction of lines 394-406. -/
def imagesFromJson (article_text : PyStr) (images : List PyStr) : List PyStr :=
  if pyIn (lit "\"image_urls\"") article_text ∨ pyIn (lit "\"image_url\"") article_text then
    (reFindAll { ignoreCase := true, dotAll := true } patJsonArr article_text).foldl
      (fun images json_match =>
        (reFindAll noFlags patQuotedUrl json_match).foldl (fun images url =>
          if ¬ images.contains url then images ++ [url] else images) images) images
  else images

/-- The `Images:` section extraction of lines 408-437. -/
def imagesFromSection (article_text : PyStr) (images : List PyStr) : List PyStr :=
  if pyIn (lit "Images:") article_text ∨ pyIn (lit "Image:") article_text then
    let sect0 :=
      if pyIn (lit "Images:") article_text then
        (pySplitOn (lit "Images:") article_text).getLastD []
      else []
    let sect1 :=
      if sect0 = [] then
        (if pyIn (lit "Image:") article_text then
          (pySplitOn (lit "Image:") article_text).getLastD []
        else [])
      else sect0
    let sect :=
      if pyIn (lit "Sources:") sect1 then (pySplitOn (lit "Sources:") sect1).headD []
      else if pyIn (lit "Source:") sect1 then (pySplitOn (lit "Source:") sect1).headD []
      else sect1
    (pySplitOn (lit "\n") sect).foldl (fun images line0 =>
      let line1 := pyStripWs line0
      if line1 = [] then images
      else
        let line :=
          if pyStarts (lit "image:") (pyLower line1) then pyStripWs (line1.drop 6)
          else line1
        if pyIn (lit "http") line then
          match reSearch noFlags patSectionUrl line with
          | some x =>
            let img_url := pyRstripBy x.2.1 sectRstripSet
            if pyStarts (lit "http") img_url ∧ ¬ images.contains img_url then
              images ++ [img_url]
            else images
          | none => images
        else images) images
  else images

/-- `list(dict.fromkeys(images))` (line 440): dedup preserving order. -/
def dedupPreserve (l : List PyStr) : List PyStr :=
  l.foldl (fun acc x => if acc.contains x then acc else acc ++ [x]) []

/-- The invalid-pattern word list of line 460. -/
def parseInvalidWords : List PyStr :=
  (["placeholder", "default", "none", "null", "undefined"] : List String).map lit

/-- The image-URL shape test of lines 465-470. -/
def parseIsImageUrl (u : PyStr) : Bool :=
  let lu := pyLower u
  ((([".jpg", ".jpeg", ".png", ".gif", ".webp", ".svg", ".bmp", ".jfif"] :
      List String).map lit).any (fun e => pyIn e lu)) ∨
  (((["/image", "/photo", "/img", "/picture", "/media"] : List String).map lit).any
    (fun k => pyIn k lu)) ∨
  (((["imgur", "flickr", "unsplash", "pexels", "getty", "cdn", "media",
      "static", "cloudinary", "images.unsplash"] : List String).map lit).any
    (fun d => pyIn d lu))

/-- One step of the URL validation loop of lines 443-475: `none` when the
candidate is skipped, otherwise the cleaned URL that is appended. -/
def validate_parse_image (img_url : PyStr) : Option PyStr :=
  if img_url = [] then none
  else if ¬ pyStarts (lit "http") img_url then none
  else if img_url.length < 10 then none
  else
    let u := pyRstripBy img_url trailRstripSet
    if parseInvalidWords.any (fun w => pyIn w (pyLower u)) then none
    else if parseIsImageUrl u then some u
    else none

/-- The default title of line 489. -/
def defaultTitle : PyStr := lit "Flash News: Top Global Events"

/-- Title method 1 (lines 492-496): markdown heading. -/
def titleMethod1 (article_text : PyStr) : PyStr :=
  match reSearch { multiline := true } patHeading article_text with
  | some (_, _, _, some g) =>
    let potential_title := pyStripWs g
    if 10 ≤ potential_title.length ∧ potential_title.length ≤ 150 then potential_title
    else defaultTitle
  | _ => defaultTitle

/-- Title method 2 (lines 499-507): the first line, with news prefixes and
leading hashes removed. -/
def titleMethod2 (article_text title : PyStr) : PyStr :=
  if title = defaultTitle ∧ pyIn (lit "\n") article_text then
    let fl0 := pyStripWs ((pySplitOn (lit "\n") article_text).headD [])
    let fl1 := reSub { ignoreCase := true } patNewsPre [] fl0
    let first_line := pyStripWs (reSub noFlags patHashPre [] fl1)
    if 10 ≤ first_line.length ∧ first_line.length ≤ 150 ∧
        ¬ pyEnds (lit ".") first_line ∧ ¬ pyEnds (lit "!") first_line then
      first_line
    else title
  else title

/-- The line test of title method 3 (lines 516-520). -/
def titleMethod3Cond (line : PyStr) : Bool :=
  decide (10 ≤ line.length) && decide (line.length ≤ 150) &&
    !(pyEnds (lit ".") line) && !(pyEnds (lit ",") line) &&
    !(pyStarts (lit "http") line) &&
    (match line.head? with
     | some c => c.isUpper
     | none => false)

/-- Title method 3 (lines 510-525): the first of the first five lines that
looks like a short capitalised title. -/
def titleMethod3 (article_text title : PyStr) : PyStr :=
  if title = defaultTitle then
    match (((pySplitOn (lit "\n") article_text).take 5).map pyStripWs).find?
        (fun line => titleMethod3Cond line ∧ (pySplitWs line).length ≤ 15) with
    | some line => line
    | none => title
  else title

/-- The title cleanup of lines 527-530 (hashes, stars, surrounding quotes). -/
def titleCleanup (title : PyStr) : PyStr :=
  let t1 := pyStripWs (reSub noFlags patHashPre [] title)
  let t2 := pyStripWs (reSub noFlags patStars [] t1)
  pyStripWs (reSub noFlags patQuoteEdge [] t2)

/-- The non-emptiness fallback of lines 532-534. -/
def titleChecked (t : PyStr) : PyStr :=
  if t = [] ∨ t.length < 5 then defaultTitle else t

/-- The second title cleanup of lines 575-577 (it repeats lines 527-529 and
runs after the non-emptiness check). -/
def titleCleanup2 (title : PyStr) : PyStr :=
  let t1 := pyStripWs (reSub noFlags patHashPre [] title)
  pyStripWs (reSub noFlags patStars [] t1)

/-- Content step 1 (lines 539-544): cut at `Sources:`, or drop the lines
containing source URLs. -/
def contentAfterSources (article_text : PyStr) (sources : List SourceRef) : PyStr :=
  if pyIn (lit "Sources:") article_text then
    pyStripWs ((pySplitOn (lit "Sources:") article_text).headD [])
  else if pyIn (lit "Source:") article_text ∧ 0 < sources.length then
    pyJoin (lit "\n") ((pySplitOn (lit "\n") article_text).filter
      (fun l => ¬ sources.any (fun s => pyIn s.url l)))
  else article_text

/-- Content step 2 (lines 546-556): remove the Images section. -/
def contentAfterImages (content : PyStr) : PyStr :=
  if pyIn (lit "Images:") content then
    pyStripWs ((pySplitOn (lit "Images:") content).headD [])
  else if pyIn (lit "Image:") content then
    (if pyIn (lit "Image:") content ∧
        (pyIn (lit "Sources:") content ∨ pyIn (lit "Source:") content) then
      let images_start := (findSub (lit "Image:") content).getD 0
      let sources_start :=
        if pyIn (lit "Sources:") content then (findSub (lit "Sources:") content).getD 0
        else (findSub (lit "Source:") content).getD 0
      if images_start < sources_start then pyStripWs (content.take images_start)
      else content
    else content)
  else content

/-- Content step 3 (lines 558-560): delete extracted image URLs, stripping
after each replacement. -/
def contentStripImageUrls (content : PyStr) (images : List PyStr) : PyStr :=
  images.foldl (fun c u => pyStripWs (pyReplace c u [])) content

/-- Content steps 4-6 (lines 563-573): collapse blank runs, strip each
line, drop empty paragraphs. -/
def contentCleanup (content : PyStr) : PyStr :=
  let c1 := reSub noFlags patNl3 (lit "\n\n") content
  let c2 := pyJoin (lit "\n") ((pySplitOn (lit "\n") c1).map pyStripWs)
  pyJoin (lit "\n\n") ((pySplitOn (lit "\n\n") c2).filter (fun p => ¬ (pyStripWs p = [])))

/-- `parse_article(result_text)` (lines 338-593). -/
def parse_article (result_text : PyStr) : PyArticle :=
  let article_text := result_text
  let sources := parseSources article_text
  let imagesA := imagesFromPatterns article_text
  let imagesB := imagesFromJson article_text imagesA
  let imagesC := imagesFromSection article_text imagesB
  let imagesD := dedupPreserve imagesC
  let images := imagesD.filterMap validate_parse_image
  let titleA := titleMethod1 article_text
  let titleB := titleMethod2 article_text titleA
  let titleC := titleMethod3 article_text titleB
  let titleD := titleChecked (titleCleanup titleC)
  let content := contentCleanup (contentStripImageUrls
    (contentAfterImages (contentAfterSources article_text sources)) images)
  let title := titleCleanup2 titleD
  let topics := extract_topics title content
  let content_preview := generate_content_preview content 5 100
  { id := none, title := some title, content := some content,
    content_preview := some content_preview, full_text := some article_text,
    created_at := none, sources := some sources,
    images := some (images.take 5), topics := some topics,
    related_articles := none }

/-!
## Persistence: `save_article`, `delete_old_articles`, `load_articles`
(api.py lines 38-218)
-/

/-- Resolution of the article id in `save_article` (lines 110-113):
the `id` key if present and truthy, else a fresh timestamp id. -/
def resolveId (article : PyArticle) (now : DT) : PyStr :=
  match article.id with
  | none => fmtTS now
  | some s => if s = [] then fmtTS now else s

/-- Resolution of `created_at` in `save_article` (lines 116-117). -/
def resolveCreatedAt (article : PyArticle) (now : DT) : PyStr :=
  match article.created_at with
  | none => fmtISO now
  | some s => if s = [] then fmtISO now else s

/-- The image-URL shape test of `save_article` (lines 134-137). -/
def saveIsImageUrl (u : PyStr) : Bool :=
  let lu := pyLower u
  ((([".jpg", ".jpeg", ".png", ".gif", ".webp", ".svg", ".bmp"] :
      List String).map lit).any (fun e => pyIn e lu)) ∨
  (((["/image", "/photo", "/img", "/picture", "/media"] : List String).map lit).any
    (fun k => pyIn k lu)) ∨
  (((["imgur", "flickr", "unsplash", "pexels", "getty", "cdn", "media",
      "static", "cloudinary"] : List String).map lit).any (fun d => pyIn d lu))

/-- One step of the image validation loop of `save_article`
(lines 126-138). -/
def saveValidateImage (img_url : PyStr) : Option PyStr :=
  if img_url = [] then none
  else
    let u := pyRstripBy (pyStripWs img_url) trailRstripSet
    if pyStarts (lit "http") u ∧ 10 < u.length then
      (if saveIsImageUrl u then some u else none)
    else none

/-- The full-text fallback of `save_article` (lines 150-171), entered with
an empty validated list; after each pattern the loop breaks as soon as the
list is non-empty. -/
def saveFallbackImages (full_text : PyStr) (images : List PyStr) : List PyStr :=
  saveFallPatterns.foldl (fun imgs pat =>
    if ¬ (imgs = []) then imgs
    else (reFindAll { ignoreCase := true } pat full_text).foldl (fun imgs m =>
      if pyStarts (lit "http") m then
        let m1 := pyRstripBy (pyStripWs m) trailRstripSet
        if 10 < m1.length ∧ ¬ imgs.contains m1 then imgs ++ [m1] else imgs
      else imgs) imgs) images

/-- The row (`supabase_data`, lines 183-194) that `save_article` sends in
its upsert. -/
def save_row (article : PyArticle) (now : DT) : Row :=
  let article_id := resolveId article now
  let created_at := resolveCreatedAt article now
  let validated := (article.images.getD []).filterMap saveValidateImage
  let article_images :=
    if validated = [] then
      (if ¬ ((article.full_text.getD []) = []) then
        saveFallbackImages (article.full_text.getD []) validated
      else validated)
    else validated
  let content_preview :=
    match article.content_preview with
    | none => generate_content_preview (article.content.getD []) 5 100
    | some p =>
      if p = [] then generate_content_preview (article.content.getD []) 5 100 else p
  { id := article_id,
    title := article.title.getD [],
    content := article.content.getD [],
    content_preview := content_preview,
    full_text := article.full_text.getD (article.content.getD []),
    created_at := created_at,
    sources := article.sources.getD [],
    images := article_images,
    topics := article.topics.getD [],
    related_articles := article.related_articles.getD [] }

/-- The Supabase upsert on the primary key `id` (line 197): replace the
row with the same id, or append. -/
def upsertRow (r : Row) (store : List Row) : List Row :=
  if store.any (fun x => x.id = r.id) then
    store.map (fun x => if x.id = r.id then r else x)
  else store ++ [r]

/-- `save_article(article)` as a store transformer (lines 108-211);
`now` is the wall clock read for the id/created_at fallbacks. -/
def save_article (article : PyArticle) (now : DT) (store : List Row) : List Row :=
  upsertRow (save_row article now) store

/-- `delete_old_articles()` (lines 215-218): the body is `pass`. -/
def delete_old_articles (store : List Row) : List Row := store

/-- `load_articles()` (lines 38-106): all rows ordered by `created_at`
descending, re-generating a missing preview, keeping rows with truthy id
and title. -/
def load_articles (store : List Row) : List Row :=
  let ordered := pySort (fun a b => pyStrLe b.created_at a.created_at) store
  ordered.filterMap (fun row =>
    let article : Row :=
      { row with content_preview :=
          if row.content_preview = [] then generate_content_preview row.content 5 100
          else row.content_preview }
    if ¬ (article.id = []) ∧ ¬ (article.title = []) then some article else none)

/-!
## The generation pipeline (api.py lines 595-796)
-/

/-- The reference note appended to the content when a similar previous
article is found (lines 643 and 770). -/
def referenceText (prev_article : Row) : PyStr :=
  lit "\n\n[Related Article: This article relates to a previous article published on " ++
    prev_article.created_at.take 10 ++ lit ": \x27" ++ prev_article.title ++ lit "\x27]"

/-- The looks-like-an-image test of the task's full-text fallback
(lines 683-684). -/
def taskImgValidOk (m : PyStr) : Bool :=
  let ml := pyLower m
  ((([".jpg", ".jpeg", ".png", ".gif", ".webp", ".svg", ".bmp"] :
      List String).map lit).any (fun e => pyIn e ml)) ∨
  (((["/image", "/photo", "/img", "/picture", "/media", "cdn", "static"] :
      List String).map lit).any (fun k => pyIn k ml))

/-- The aggressive full-text image re-extraction of
`generate_article_task` (lines 657-691). -/
def taskFallbackImages (full_text : PyStr) : List PyStr :=
  taskFallPatterns.foldl (fun found pat =>
    (reFindAll { ignoreCase := true } pat full_text).foldl (fun found m =>
      if pyStarts (lit "http") m then
        let m1 := pyRstripBy (pyStripWs m) trailRstripSet
        if 10 < m1.length ∧ ¬ found.contains m1 then
          (if taskImgValidOk m1 then found ++ [m1] else found)
        else found
      else found) found) []

/-- The `article_data` dict as it stands just before the `save_article`
call of `generate_article_task` (lines 600-700): parse the crew output,
stamp id (`tId`) and created_at (`tCa`), attach the most similar previous
article at threshold 0.4, and re-extract images from the full text when
parsing yielded none. -/
def task_article (store : List Row) (crewOutput : PyStr) (tId tCa : DT) : PyArticle :=
  let existing_articles := load_articles store
  let p0 := parse_article crewOutput
  let p1 : PyArticle := { p0 with id := some (fmtTS tId), created_at := some (fmtISO tCa) }
  let similar_articles :=
    find_similar_articles (p1.title.getD []) (p1.content.getD []) existing_articles
      (mkRat 2 5)
  let p2 : PyArticle :=
    match similar_articles with
    | [] => { p1 with related_articles := some [] }
    | most_similar :: _ =>
      let prev_article := most_similar.article
      { p1 with
        related_articles := some [⟨prev_article.id, prev_article.title,
          prev_article.created_at, most_similar.similarity⟩],
        content := some ((p1.content.getD []) ++ referenceText prev_article) }
  if (p2.images.getD []) = [] then
    match p2.full_text with
    | some ft =>
      if ¬ (ft = []) then
        (let found := taskFallbackImages ft
        if ¬ (found = []) then { p2 with images := some found } else p2)
      else p2
    | none => p2
  else p2

/-- `generate_article_task()` as a store transformer (lines 595-714). -/
def generate_article_task (store : List Row) (crewOutput : PyStr) (tId tCa : DT) :
    List Row :=
  save_article (task_article store crewOutput tId tCa) tCa store

/-- The `article_data` built by the `POST /api/generate-article` handler
(lines 733-773); unlike the background task it has no full-text image
fallback. -/
def api_article (store : List Row) (crewOutput : PyStr) (tId tCa : DT) : PyArticle :=
  let existing_articles := load_articles store
  let p0 := parse_article crewOutput
  let p1 : PyArticle := { p0 with id := some (fmtTS tId), created_at := some (fmtISO tCa) }
  let similar_articles :=
    find_similar_articles (p1.title.getD []) (p1.content.getD []) existing_articles
      (mkRat 2 5)
  match similar_articles with
  | [] => { p1 with related_articles := some [] }
  | most_similar :: _ =>
    let prev_article := most_similar.article
    { p1 with
      related_articles := some [⟨prev_article.id, prev_article.title,
        prev_article.created_at, most_similar.similarity⟩],
      content := some ((p1.content.getD []) ++ referenceText prev_article) }

/-- The `POST /api/generate-article` handler as a store transformer
(lines 733-796). -/
def generate_article (store : List Row) (crewOutput : PyStr) (tId tCa : DT) :
    List Row :=
  save_article (api_article store crewOutput tId tCa) tCa store

/-!
## The store operations and the scheduler (api.py lines 716-887)
-/

/-- The operations of the program that touch (or could touch) the article
store: direct saves, the disabled deletion routine, the two generation
entry points, and the read-only GET handlers. -/
inductive StoreOp where
  | opSave (article : PyArticle) (now : DT)
  | opDeleteOld
  | opGenerateTask (crewOutput : PyStr) (tId tCa : DT)
  | opApiGenerate (crewOutput : PyStr) (tId tCa : DT)
  | opRead

/-- Effect of one operation on the store. -/
def applyOp (op : StoreOp) (store : List Row) : List Row :=
  match op with
  | .opSave article now => save_article article now store
  | .opDeleteOld => delete_old_articles store
  | .opGenerateTask crewOutput tId tCa => generate_article_task store crewOutput tId tCa
  | .opApiGenerate crewOutput tId tCa => generate_article store crewOutput tId tCa
  | .opRead => store

/-- Effect of a sequence of operations. -/
def applyOps (ops : List StoreOp) (store : List Row) : List Row :=
  ops.foldl (fun st op => applyOp op st) store

/-- The ids present in a store. -/
def storeIds (store : List Row) : List PyStr := store.map (fun r => r.id)

/-- An event of the scheduler loop: one generation attempt (with whether
it raised, the raise being caught by the `except` clause), or a
`time.sleep` for the given number of seconds. -/
inductive SchedEvent where
  | genAttempt (cycle : Nat) (raised : Bool)
  | sleep (seconds : Nat)
deriving DecidableEq

/-- One iteration of the `while True` body of `scheduler_worker`
(lines 719-731): try the generation task — any exception is caught and
logged — then `time.sleep(18000)`. -/
def scheduler_iteration (cycle : Nat) (raised : Bool) : List SchedEvent :=
  [.genAttempt cycle raised, .sleep 18000]

/-- The event trace of the first `n` iterations of `scheduler_worker`,
given which cycles raise. -/
def scheduler_worker (raises : Nat → Bool) (n : Nat) : List SchedEvent :=
  (List.range n).flatMap (fun i => scheduler_iteration i (raises i))

/-!
## Concrete inputs used by witnesses and counterexamples
-/

/-- A crew output whose only image URL is matched by none of
`parse_article`'s patterns but by the task fallback's `/media/` pattern. -/
def c2txt : PyStr :=
  lit "Global Markets Rally Today\n\nStocks rose across the board in trading.\n\nhttps://news.example.com/media/chart123"

/-- A crew output whose first line is a quoted run of hashes: it passes the
title checks as `##########` and is then emptied by the second cleanup. -/
def c6txt : PyStr := lit "\"##########\"\nSomething here happened today."

/-- A crew output carrying a JSON image array with one URL listed both
with and without a trailing dot. -/
def c10txt : PyStr :=
  lit "\x7b\"image_urls\": [\"http://cdn.x/a.\", \"http://cdn.x/a\"]\x7d"

/-- Crew outputs on disjoint topics (no similarity between them). -/
def xatxt : PyStr := lit "Alpha Report Details\n\nBravo charlie delta echo."

/-- See `xatxt`. -/
def xbtxt : PyStr := lit "Orange Banana Chronicle\n\nKumquat lychee mango papaya."

/-- A fixed wall-clock reading. -/
def wit0 : DT := ⟨2025, 6, 1, 12, 0, 0⟩

/-- One second after `wit0`. -/
def wit1 : DT := ⟨2025, 6, 1, 12, 0, 1⟩

/-- A stored row used by witnesses. -/
def witRow : Row :=
  ⟨lit "20250101000000", lit "banana cherry", [], [], [], lit "2025-01-01T00:00:00",
    [], [], [], []⟩

/-- The similarity value `find_similar_articles` computes for a stored
article (the `similarity` local of lines 323-325). -/
def simVal (nt nc : PyStr) (art : Row) : ℚ :=
  if 0 < ((extract_topics nt nc).toFinset ∪
      (extract_topics art.title art.content).toFinset).card then
    mkRat ((extract_topics nt nc).toFinset ∩
        (extract_topics art.title art.content).toFinset).card
      ((extract_topics nt nc).toFinset ∪
        (extract_topics art.title art.content).toFinset).card
  else 0

/-- The Jaccard similarity of two topic sets as the spec words it: the
size of the intersection divided by the size of the union. -/
def spec_jaccard (s1 s2 : Finset PyStr) : ℚ :=
  ((s1 ∩ s2).card : ℚ) / ((s1 ∪ s2).card : ℚ)

/-!
## Helper lemmas
-/

theorem storeIds_upsert (r : Row) (store : List Row) :
    storeIds store ⊆ storeIds (upsertRow r store) := by
  unfold upsertRow
  split
  · have : storeIds (store.map (fun x => if x.id = r.id then r else x)) = storeIds store := by
      unfold storeIds
      rw [List.map_map]
      apply List.map_congr_left
      intro x _
      by_cases h : x.id = r.id <;> simp [h]
    rw [this]
    exact fun i hi => hi
  · unfold storeIds
    intro i hi
    simp only [List.map_append]
    exact List.mem_append_left _ hi

theorem storeIds_applyOp (op : StoreOp) (store : List Row) :
    storeIds store ⊆ storeIds (applyOp op store) := by
  cases op with
  | opSave article now => exact storeIds_upsert _ _
  | opDeleteOld => exact fun i hi => hi
  | opGenerateTask crewOutput tId tCa => exact storeIds_upsert _ _
  | opApiGenerate crewOutput tId tCa => exact storeIds_upsert _ _
  | opRead => exact fun i hi => hi

theorem storeIds_applyOps (ops : List StoreOp) (store : List Row) :
    storeIds store ⊆ storeIds (applyOps ops store) := by
  induction ops generalizing store with
  | nil => exact fun i hi => hi
  | cons op ops ih =>
    intro i hi
    exact ih (applyOp op store) (storeIds_applyOp op store hi)

theorem filter_map_replace (r : Row) (j : PyStr) (h : ¬ (j = r.id)) :
    ∀ xs : List Row,
      (xs.map (fun x => if x.id = r.id then r else x)).filter (fun x => x.id = j) =
        xs.filter (fun x => x.id = j) := by
  intro xs
  induction xs with
  | nil => rfl
  | cons x xs ih =>
    by_cases hx : x.id = r.id
    · have hxj : ¬ (x.id = j) := fun hc => h (hx ▸ hc).symm
      have hrj : ¬ (r.id = j) := fun hc => h hc.symm
      simp only [List.map_cons, List.filter_cons, hx, if_pos rfl, if_true]
      simp [hrj, hxj, ih]
    · by_cases hj : x.id = j <;> simp [hx, hj, ih, h]

theorem filter_upsert_ne (r : Row) (store : List Row) (j : PyStr) (h : ¬ (j = r.id)) :
    (upsertRow r store).filter (fun x => x.id = j) = store.filter (fun x => x.id = j) := by
  unfold upsertRow
  split
  · exact filter_map_replace r j h store
  · have hrj : ¬ (r.id = j) := fun hc => h hc.symm
    simp [List.filter_append, hrj]

theorem pyRsplitSpaceHead_length_le (s : PyStr) :
    (pyRsplitSpaceHead s).length ≤ s.length := by
  unfold pyRsplitSpaceHead
  split
  · have h1 : (s.reverse.dropWhile (fun c => ¬ (c = ' '))).length ≤ s.reverse.length :=
      (List.dropWhile_sublist _).length_le
    simp only [List.length_reverse, List.length_drop] at h1 ⊢
    omega
  · exact le_refl _

theorem truncPreview_bound (M : Nat) (p : PyStr) :
    (truncPreview M p).length ≤ M ∨
      ((truncPreview M p).length ≤ M + 3 ∧
        (truncPreview M p).drop ((truncPreview M p).length - 3) = lit "...") := by
  unfold truncPreview
  split
  · right
    have hq : (pyRsplitSpaceHead (p.take M)).length ≤ M := by
      have h1 := pyRsplitSpaceHead_length_le (p.take M)
      simp only [List.length_take] at h1
      omega
    constructor
    · simp only [List.length_append]
      have : (lit "...").length = 3 := rfl
      omega
    · have hlen : (pyRsplitSpaceHead (p.take M) ++ lit "...").length - 3 =
          (pyRsplitSpaceHead (p.take M)).length := by
        simp only [List.length_append]
        have : (lit "...").length = 3 := rfl
        omega
      rw [hlen]
      exact List.drop_left _ _
  · left
    exact Nat.le_of_not_lt (by assumption)

/-- C3: no operation of the program removes an article from the store:
`delete_old_articles` is the identity on the store, and over any sequence
of pipeline cycles, API requests, saves and (disabled) deletions the set
of stored article ids only grows. -/
theorem c3_articles_never_deleted :
    (∀ store : List Row, delete_old_articles store = store) ∧
    ∀ (ops : List StoreOp) (store : List Row),
      storeIds store ⊆ storeIds (applyOps ops store) :=
  ⟨fun _ => rfl, storeIds_applyOps⟩

/-- C3 witness: a stored id survives a concrete operation sequence. -/
theorem c3_witness :
    lit "20250101000000" ∈ storeIds (applyOps
      [StoreOp.opDeleteOld, StoreOp.opSave
        ⟨some (lit "20250601120000"), some (lit "Witness title"), none, none, none,
          some (lit "2025-06-01T12:00:00"), none, none, none, none⟩ wit0]
      [witRow]) :=
  c3_articles_never_deleted.2 _ [witRow] (by decide)

/-- C5: `save_article` persists through a single upsert keyed on the
resolved article id, and saving leaves every stored row whose id differs
from the saved id unchanged. -/
theorem c5_save_upsert_frame (article : PyArticle) (now : DT) (store : List Row)
    (j : PyStr) (h : ¬ (j = (save_row article now).id)) :
    save_article article now store = upsertRow (save_row article now) store ∧
    (save_article article now store).filter (fun r => r.id = j) =
      store.filter (fun r => r.id = j) :=
  ⟨rfl, filter_upsert_ne _ _ _ h⟩

/-- C5 witness: saving a fresh article leaves the row with a different id
untouched. -/
theorem c5_witness :
    (save_article
        ⟨some (lit "20250601120000"), some (lit "Witness title"), none, none, none,
          some (lit "2025-06-01T12:00:00"), none, none, none, none⟩ wit0 [witRow]).filter
        (fun r => r.id = lit "20250101000000") =
      [witRow].filter (fun r => r.id = lit "20250101000000") :=
  (c5_save_upsert_frame _ wit0 [witRow] (lit "20250101000000") (by decide)).2

/-- C9: every sleep of the scheduler trace is exactly 18000 seconds, every
cycle's generation attempt occurs whether or not it raises (the exception
is caught), and each iteration appends one attempt followed by one
18000-second sleep. -/
theorem c9_scheduler_sleep (raises : Nat → Bool) (n : Nat) :
    (∀ e ∈ scheduler_worker raises n, ∀ s, e = SchedEvent.sleep s → s = 18000) ∧
    (∀ i, i < n → SchedEvent.genAttempt i (raises i) ∈ scheduler_worker raises n) ∧
    scheduler_worker raises (n + 1) =
      scheduler_worker raises n ++
        [SchedEvent.genAttempt n (raises n), SchedEvent.sleep 18000] := by
  refine ⟨?_, ?_, ?_⟩
  · intro e he s hs
    subst hs
    unfold scheduler_worker at he
    simp only [List.mem_flatMap] at he
    obtain ⟨i, _, hmem⟩ := he
    simp only [scheduler_iteration, List.mem_cons, List.mem_singleton] at hmem
    rcases hmem with h1 | h1 | h1
    · exact absurd h1 (by simp)
    · injection h1
    · exact absurd h1 (by simp)
  · intro i hi
    unfold scheduler_worker
    simp only [List.mem_flatMap]
    exact ⟨i, by simpa using hi, by simp [scheduler_iteration]⟩
  · unfold scheduler_worker
    rw [List.range_succ]
    simp [scheduler_iteration]

/-- C9 witness: in a two-cycle trace where the first cycle raises, the
second attempt still occurs. -/
theorem c9_witness :
    SchedEvent.genAttempt 1 false ∈
      scheduler_worker (fun i => i = 0) 2 :=
  (c9_scheduler_sleep (fun i => i = 0) 2).2.1 1 (by decide)

/-- C8: with `max_lines=5` and `max_chars_per_line=100` the preview is at
most 500 characters, or at most 503 and ending in the truncation ellipsis
`...`. -/
theorem gcp_shape (c : PyStr) (hc : ¬ (c = [])) :
    ∃ x, generate_content_preview c 5 100 = truncPreview 500 x := by
  simp only [generate_content_preview, if_neg hc]
  split
  · exact ⟨_, rfl⟩
  · exact ⟨_, rfl⟩

theorem c8_preview_bounded (content : PyStr) :
    (generate_content_preview content 5 100).length ≤ 500 ∨
      ((generate_content_preview content 5 100).length ≤ 503 ∧
        (generate_content_preview content 5 100).drop
          ((generate_content_preview content 5 100).length - 3) = lit "...") := by
  by_cases hc : content = []
  · left
    subst hc
    decide
  · obtain ⟨x, hx⟩ := gcp_shape content hc
    rw [hx]
    exact truncPreview_bound 500 x

set_option maxRecDepth 100000
set_option maxHeartbeats 4000000

theorem digit10_inj (a b : Nat) (ha : a < 10) (hb : b < 10)
    (h : Char.ofNat (48 + a) = Char.ofNat (48 + b)) : a = b := by
  interval_cases a <;> interval_cases b <;>
    first
      | rfl
      | exact absurd h (by decide)

theorem digitChar_inj {a b : Nat} (h : digitChar a = digitChar b) :
    a % 10 = b % 10 :=
  digit10_inj _ _ (Nat.mod_lt _ (by omega)) (Nat.mod_lt _ (by omega)) h

theorem fmtTS_inj (t u : DT) (ht : validDT t) (hu : validDT u)
    (h : fmtTS t = fmtTS u) : t = u := by
  obtain ⟨ty, tmo, td, th, tmi, ts⟩ := t
  obtain ⟨uy, umo, ud, uh, umi, us⟩ := u
  unfold validDT at ht hu
  simp only at ht hu
  simp only [fmtTS, pad4, pad2, List.cons_append, List.nil_append,
    List.cons.injEq, and_true] at h
  obtain ⟨h1, h2, h3, h4, h5, h6, h7, h8, h9, h10, h11, h12, h13, h14⟩ := h
  have e1 := digitChar_inj h1
  have e2 := digitChar_inj h2
  have e3 := digitChar_inj h3
  have e4 := digitChar_inj h4
  have e5 := digitChar_inj h5
  have e6 := digitChar_inj h6
  have e7 := digitChar_inj h7
  have e8 := digitChar_inj h8
  have e9 := digitChar_inj h9
  have e10 := digitChar_inj h10
  have e11 := digitChar_inj h11
  have e12 := digitChar_inj h12
  have e13 := digitChar_inj h13
  have e14 := digitChar_inj h14
  simp only [DT.mk.injEq]
  omega

theorem fmtTS_ne_nil (t : DT) : ¬ (fmtTS t = []) := by
  simp [fmtTS, pad4]

theorem task_article_id (store : List Row) (x : PyStr) (tId tCa : DT) :
    (task_article store x tId tCa).id = some (fmtTS tId) := by
  simp only [task_article]
  repeat' split
  all_goals rfl

theorem save_row_id_of_some (article : PyArticle) (now : DT) (s : PyStr)
    (hid : article.id = some s) (hne : ¬ (s = [])) :
    (save_row article now).id = s := by
  show resolveId article now = s
  unfold resolveId
  rw [hid]
  simp [hne]

/-- C4 (amended): the id assigned by a pipeline cycle is exactly the
second-resolution timestamp string of its creation instant, and two
persisted pipeline articles created at distinct second-resolution instants
have distinct ids; two cycles within the same second, however, share an id
(see the counterexample). -/
theorem c4_ids_distinct_seconds (s1 s2 : List Row) (x1 x2 : PyStr)
    (ta tb ca cb : DT) (hva : validDT ta) (hvb : validDT tb)
    (hne : ¬ (ta = tb)) :
    (task_article s1 x1 ta ca).id = some (fmtTS ta) ∧
    ¬ ((save_row (task_article s1 x1 ta ca) ca).id =
        (save_row (task_article s2 x2 tb cb) cb).id) := by
  refine ⟨task_article_id s1 x1 ta ca, ?_⟩
  rw [save_row_id_of_some _ _ _ (task_article_id s1 x1 ta ca) (fmtTS_ne_nil ta),
    save_row_id_of_some _ _ _ (task_article_id s2 x2 tb cb) (fmtTS_ne_nil tb)]
  intro h
  exact hne (fmtTS_inj ta tb hva hvb h)

/-- C4 witness: articles persisted at two concrete instants one second
apart get distinct ids. -/
theorem c4_witness :
    ¬ ((save_row (task_article [] xatxt wit0 wit0) wit0).id =
        (save_row (task_article [] xbtxt wit1 wit1) wit1).id) :=
  (c4_ids_distinct_seconds [] [] xatxt xbtxt wit0 wit1 wit0 wit1
    (by decide) (by decide) (by decide)).2

/-- C4 counterexample: two pipeline cycles in the same second persist two
distinct articles (different titles) that carry the same id; the second
upsert overwrites the first, so the claim that any two distinct persisted
articles have distinct ids fails. -/
theorem c4_counterexample :
    (generate_article_task [] xatxt wit0 wit0).map (fun r => (r.id, r.title)) =
      [(fmtTS wit0, lit "Alpha Report Details")] ∧
    (generate_article_task (generate_article_task [] xatxt wit0 wit0) xbtxt
        wit0 wit0).map (fun r => (r.id, r.title)) =
      [(fmtTS wit0, lit "Orange Banana Chronicle")] := by
  constructor
  · decide
  · decide

theorem mem_pyInsertSorted (le : α → α → Bool) (x a : α) (l : List α) :
    a ∈ pyInsertSorted le x l ↔ a ∈ x :: l := by
  induction l with
  | nil => simp [pyInsertSorted]
  | cons y ys ih =>
    simp only [pyInsertSorted]
    split
    · exact Iff.rfl
    · simp only [List.mem_cons] at ih ⊢
      rw [ih]
      tauto

theorem mem_pySort (le : α → α → Bool) (a : α) (l : List α) :
    a ∈ pySort le l ↔ a ∈ l := by
  induction l with
  | nil => exact Iff.rfl
  | cons x xs ih =>
    simp only [pySort]
    rw [mem_pyInsertSorted]
    simp [ih]

theorem pairwise_pyInsertSorted (le : α → α → Bool)
    (htot : ∀ a b, le a b = true ∨ le b a = true)
    (htrans : ∀ a b c, le a b = true → le b c = true → le a c = true)
    (x : α) (l : List α) (hl : l.Pairwise (fun a b => le a b = true)) :
    (pyInsertSorted le x l).Pairwise (fun a b => le a b = true) := by
  induction l with
  | nil => simp [pyInsertSorted]
  | cons y ys ih =>
    rw [List.pairwise_cons] at hl
    obtain ⟨hy, hys⟩ := hl
    simp only [pyInsertSorted]
    split
    · rename_i hxy
      refine List.Pairwise.cons ?_ (List.Pairwise.cons hy hys)
      intro b hb
      rcases List.mem_cons.mp hb with rfl | hb'
      · exact hxy
      · exact htrans x y b hxy (hy b hb')
    · rename_i hxy
      have hyx : le y x = true := (htot x y).resolve_left (by simpa using hxy)
      refine List.Pairwise.cons ?_ (ih hys)
      intro b hb
      rcases List.mem_cons.mp ((mem_pyInsertSorted le x b ys).mp hb) with rfl | hb'
      · exact hyx
      · exact hy b hb'

theorem pairwise_pySort (le : α → α → Bool)
    (htot : ∀ a b, le a b = true ∨ le b a = true)
    (htrans : ∀ a b c, le a b = true → le b c = true → le a c = true) :
    ∀ l : List α, (pySort le l).Pairwise (fun a b => le a b = true) := by
  intro l
  induction l with
  | nil => simp [pySort]
  | cons x xs ih => exact pairwise_pyInsertSorted le htot htrans x _ ih

/-- C7: the list returned by `find_similar_articles` is sorted in
non-increasing order of the recorded similarity scores. -/
theorem c7_sorted_descending (new_title new_content : PyStr)
    (existing : List Row) (q : ℚ) :
    (find_similar_articles new_title new_content existing q).Pairwise
      (fun e1 e2 => e2.similarity ≤ e1.similarity) := by
  simp only [find_similar_articles]
  have h := pairwise_pySort (α := SimEntry)
    (fun a b => decide (b.similarity ≤ a.similarity))
    (fun a b => by
      rcases le_total b.similarity a.similarity with h | h
      · left
        simpa using h
      · right
        simpa using h)
    (fun a b c hab hbc => by
      simp only [decide_eq_true_eq] at hab hbc ⊢
      exact le_trans hbc hab)
  refine List.Pairwise.imp ?_ (h _)
  intro a b hab
  simpa using hab

theorem mem_find_similar (nt nc : PyStr) (arts : List Row) (q : ℚ)
    (e : SimEntry) :
    e ∈ find_similar_articles nt nc arts q ↔
      ∃ art, art ∈ arts ∧
        0 < (extract_topics nt nc).toFinset.card ∧
        0 < (extract_topics art.title art.content).toFinset.card ∧
        q ≤ simVal nt nc art ∧
        e = ⟨art, simVal nt nc art,
          (extract_topics nt nc).toFinset ∩
            (extract_topics art.title art.content).toFinset⟩ := by
  simp only [find_similar_articles]
  rw [mem_pySort]
  rw [List.mem_filterMap]
  apply exists_congr
  intro art
  constructor
  · rintro ⟨hmem, hf⟩
    refine ⟨hmem, ?_⟩
    split at hf
    · rename_i hcards
      split at hf
      · rename_i hu
        split at hf
        · rename_i hq
          injection hf with hf
          refine ⟨hcards.1, hcards.2, ?_, ?_⟩
          · simp only [simVal, if_pos hu]
            exact hq
          · rw [← hf]
            simp [simVal, hu]
        · exact absurd hf (by simp)
      · rename_i hu
        exact absurd
          (lt_of_lt_of_le hcards.1 (Finset.card_le_card Finset.subset_union_left)) hu
    · exact absurd hf (by simp)
  · rintro ⟨hmem, hc1, hc2, hq, he⟩
    refine ⟨hmem, ?_⟩
    have hu : 0 < ((extract_topics nt nc).toFinset ∪
        (extract_topics art.title art.content).toFinset).card :=
      lt_of_lt_of_le hc1 (Finset.card_le_card Finset.subset_union_left)
    simp only [simVal, if_pos hu] at hq
    rw [if_pos ⟨hc1, hc2⟩, if_pos hu, if_pos hq, he]
    simp [simVal, hu]

theorem simVal_eq_spec_jaccard (nt nc : PyStr) (art : Row)
    (h1 : 0 < (extract_topics nt nc).toFinset.card) :
    simVal nt nc art =
      spec_jaccard (extract_topics nt nc).toFinset
        (extract_topics art.title art.content).toFinset := by
  have hu : 0 < ((extract_topics nt nc).toFinset ∪
      (extract_topics art.title art.content).toFinset).card :=
    lt_of_lt_of_le h1 (Finset.card_le_card Finset.subset_union_left)
  simp only [simVal, if_pos hu, spec_jaccard]
  rw [Rat.mkRat_eq_div]
  push_cast
  rfl

/-- C1: when the topic sets of the new article and of a stored article are
both non-empty, the stored article appears in the result of
`find_similar_articles` exactly when the Jaccard similarity of the topic
sets (intersection size over union size) is at least the threshold, and
every entry for that article records exactly this Jaccard similarity. -/
theorem c1_jaccard_membership (new_title new_content : PyStr)
    (existing : List Row) (q : ℚ) (a : Row) (ha : a ∈ existing)
    (h1 : 0 < (extract_topics new_title new_content).toFinset.card)
    (h2 : 0 < (extract_topics a.title a.content).toFinset.card) :
    ((∃ e ∈ find_similar_articles new_title new_content existing q,
        e.article = a ∧
        e.similarity = spec_jaccard (extract_topics new_title new_content).toFinset
          (extract_topics a.title a.content).toFinset) ↔
      q ≤ spec_jaccard (extract_topics new_title new_content).toFinset
        (extract_topics a.title a.content).toFinset) ∧
    ∀ e ∈ find_similar_articles new_title new_content existing q,
      e.article = a →
        e.similarity = spec_jaccard (extract_topics new_title new_content).toFinset
          (extract_topics a.title a.content).toFinset := by
  have hbridge := simVal_eq_spec_jaccard new_title new_content a h1
  constructor
  · constructor
    · rintro ⟨e, he, hea, hesim⟩
      rw [mem_find_similar] at he
      obtain ⟨art, hmem, hc1, hc2, hq, hemk⟩ := he
      have hart : art = a := by rw [← hea, hemk]
      subst hart
      rw [hbridge] at hq
      exact hq
    · intro hq
      have hmem : (⟨a, spec_jaccard (extract_topics new_title new_content).toFinset
          (extract_topics a.title a.content).toFinset,
          (extract_topics new_title new_content).toFinset ∩
            (extract_topics a.title a.content).toFinset⟩ : SimEntry) ∈
          find_similar_articles new_title new_content existing q := by
        rw [mem_find_similar]
        refine ⟨a, ha, h1, h2, ?_, ?_⟩
        · rw [hbridge]
          exact hq
        · rw [hbridge]
      exact ⟨_, hmem, rfl, rfl⟩
  · intro e he hea
    rw [mem_find_similar] at he
    obtain ⟨art, hmem, hc1, hc2, hq, hemk⟩ := he
    have hart : art = a := by rw [← hea, hemk]
    subst hart
    rw [hemk, hbridge]

/-- C1 witness: a concrete new article sharing the topic `banana` with a
stored article; the Jaccard similarity is 1/3 and the threshold 3/10. -/
theorem c1_witness :
    ((∃ e ∈ find_similar_articles (lit "orange banana") [] [witRow] (mkRat 3 10),
        e.article = witRow ∧
        e.similarity = spec_jaccard (extract_topics (lit "orange banana") []).toFinset
          (extract_topics witRow.title witRow.content).toFinset) ↔
      mkRat 3 10 ≤ spec_jaccard (extract_topics (lit "orange banana") []).toFinset
        (extract_topics witRow.title witRow.content).toFinset) ∧
    ∀ e ∈ find_similar_articles (lit "orange banana") [] [witRow] (mkRat 3 10),
      e.article = witRow →
        e.similarity = spec_jaccard (extract_topics (lit "orange banana") []).toFinset
          (extract_topics witRow.title witRow.content).toFinset :=
  c1_jaccard_membership (lit "orange banana") [] [witRow] (mkRat 3 10) witRow
    (by decide) (by decide) (by decide)

/-- C6 (code bug): on this input the title chosen by method 2 passes the
length-≥-5 fallback check of lines 532-534 as `##########`, but the
duplicated markdown cleanup of lines 575-577 — which runs after that check
— strips it to the empty string, contradicting the code's own comment
`Ensure title is not empty`:  `parse_article` returns an empty title. -/
theorem c6_title_emptied :
    titleChecked (titleCleanup (titleMethod3 c6txt
        (titleMethod2 c6txt (titleMethod1 c6txt)))) = lit "##########" ∧
    (parse_article c6txt).title = some [] := by
  constructor
  · decide
  · decide

theorem pyRstripBy_http (rest : PyStr) :
    pyRstripBy (lit "http" ++ rest) trailRstripSet =
      lit "http" ++ pyRstripBy rest trailRstripSet := by
  show pyRstripBy ('h' :: 't' :: 't' :: 'p' :: rest) _ = _
  have h1 : ¬ ('h' ∈ trailRstripSet) := by decide
  have h2 : ¬ ('t' ∈ trailRstripSet) := by decide
  have h3 : ¬ ('p' ∈ trailRstripSet) := by decide
  simp [pyRstripBy, h1, h2, h3, lit]

theorem validate_parse_image_http (v u : PyStr)
    (h : validate_parse_image v = some u) : u.take 4 = lit "http" := by
  simp only [validate_parse_image] at h
  split at h
  · exact absurd h (by simp)
  · split at h
    · exact absurd h (by simp)
    · split at h
      · exact absurd h (by simp)
      · split at h
        · exact absurd h (by simp)
        · split at h
          · rename_i hne hpre hlen hinv himg
            injection h with h
            subst h
            have hpre' : (lit "http").isPrefixOf v = true := by
              simpa [pyStarts] using hpre
            obtain ⟨rest, hrest⟩ := List.isPrefixOf_iff_prefix.mp hpre'
            rw [← hrest, pyRstripBy_http]
            exact List.take_left' rfl
          · exact absurd h (by simp)

theorem parse_article_images (text : PyStr) :
    (parse_article text).images =
      some (((dedupPreserve (imagesFromSection text (imagesFromJson text
        (imagesFromPatterns text)))).filterMap validate_parse_image).take 5) := rfl

/-- C10 (amended): for every input text the images list returned by
`parse_article` has at most 5 entries and every entry starts with `http`;
it need not be duplicate-free, because entries are deduplicated before the
trailing-punctuation rstrip of the validation loop, which can map two
distinct entries to the same URL (see the counterexample). -/
theorem c10_images_shape (text : PyStr) :
    ((parse_article text).images.getD []).length ≤ 5 ∧
    ∀ u ∈ (parse_article text).images.getD [], u.take 4 = lit "http" := by
  rw [parse_article_images]
  constructor
  · simp only [Option.getD_some, List.length_take]
    exact Nat.min_le_left _ _
  · intro u hu
    simp only [Option.getD_some] at hu
    obtain ⟨v, _, hval⟩ := List.mem_filterMap.mp (List.mem_of_mem_take hu)
    exact validate_parse_image_http v u hval

/-- C10 counterexample: a JSON image array listing one URL both with and
without a trailing dot makes `parse_article` return a duplicated entry,
because the rstrip of the validation loop runs after deduplication. -/
theorem c10_counterexample :
    (parse_article c10txt).images.getD [] =
      [lit "http://cdn.x/a.\", \"http://cdn.x/a", lit "http://cdn.x/a",
        lit "http://cdn.x/a"] ∧
    ¬ ((parse_article c10txt).images.getD []).Nodup := by
  constructor
  · decide
  · decide

theorem task_article_created_at (store : List Row) (text : PyStr) (tId tCa : DT) :
    (task_article store text tId tCa).created_at = some (fmtISO tCa) := by
  simp only [task_article]
  repeat' split
  all_goals rfl

theorem task_article_title (store : List Row) (text : PyStr) (tId tCa : DT) :
    (task_article store text tId tCa).title = (parse_article text).title := by
  simp only [task_article]
  repeat' split
  all_goals rfl

theorem task_article_sources (store : List Row) (text : PyStr) (tId tCa : DT) :
    (task_article store text tId tCa).sources = (parse_article text).sources := by
  simp only [task_article]
  repeat' split
  all_goals rfl

theorem task_article_topics (store : List Row) (text : PyStr) (tId tCa : DT) :
    (task_article store text tId tCa).topics = (parse_article text).topics := by
  simp only [task_article]
  repeat' split
  all_goals rfl

theorem task_article_preview (store : List Row) (text : PyStr) (tId tCa : DT) :
    (task_article store text tId tCa).content_preview =
      (parse_article text).content_preview := by
  simp only [task_article]
  repeat' split
  all_goals rfl

theorem task_article_full_text (store : List Row) (text : PyStr) (tId tCa : DT) :
    (task_article store text tId tCa).full_text = (parse_article text).full_text := by
  simp only [task_article]
  repeat' split
  all_goals rfl

theorem task_article_nil_similar (store : List Row) (text : PyStr) (tId tCa : DT)
    (h : find_similar_articles ((parse_article text).title.getD [])
      ((parse_article text).content.getD []) (load_articles store) (mkRat 2 5) = []) :
    (task_article store text tId tCa).related_articles = some [] ∧
    (task_article store text tId tCa).content = (parse_article text).content := by
  constructor
  · simp only [task_article, h]
    repeat' split
    all_goals rfl
  · simp only [task_article, h]
    repeat' split
    all_goals rfl

theorem task_article_cons_similar (store : List Row) (text : PyStr) (tId tCa : DT)
    (e : SimEntry) (rest : List SimEntry)
    (h : find_similar_articles ((parse_article text).title.getD [])
      ((parse_article text).content.getD []) (load_articles store) (mkRat 2 5) =
        e :: rest) :
    (task_article store text tId tCa).related_articles =
      some [⟨e.article.id, e.article.title, e.article.created_at, e.similarity⟩] ∧
    (task_article store text tId tCa).content =
      some ((parse_article text).content.getD [] ++ referenceText e.article) := by
  constructor
  · simp only [task_article, h]
    repeat' split
    all_goals rfl
  · simp only [task_article, h]
    repeat' split
    all_goals rfl

theorem task_article_images_eq (store : List Row) (text : PyStr) (tId tCa : DT) :
    (task_article store text tId tCa).images =
      (if ((parse_article text).images.getD []) = [] ∧
          ¬ ((parse_article text).full_text.getD [] = []) ∧
          ¬ (taskFallbackImages ((parse_article text).full_text.getD []) = [])
        then some (taskFallbackImages ((parse_article text).full_text.getD []))
        else (parse_article text).images) := by
  simp only [task_article]
  repeat' split
  all_goals simp_all

/--
C2 (amended): each generation cycle loads the stored articles first, then
parses the crew output, deduplicates against the articles loaded at the
start (threshold 0.4), and only then persists through `save_article`.  The
persisted article is `parse_article`'s output augmented with the fresh
timestamp id and created_at, a `related_articles` list holding the single
most similar previous article (or empty when none reaches the threshold)
and, in that case, a reference note appended to the content — except for
the images: when `parse_article` found no images they are re-extracted
from the full text with the aggressive fallback patterns, and
`save_article` itself re-validates the image list before persisting.
-/
theorem c2_pipeline_shape (store : List Row) (text : PyStr) (tId tCa : DT) :
    generate_article_task store text tId tCa =
      save_article (task_article store text tId tCa) tCa store ∧
    (task_article store text tId tCa).id = some (fmtTS tId) ∧
    (task_article store text tId tCa).created_at = some (fmtISO tCa) ∧
    (task_article store text tId tCa).title = (parse_article text).title ∧
    (task_article store text tId tCa).sources = (parse_article text).sources ∧
    (task_article store text tId tCa).topics = (parse_article text).topics ∧
    (task_article store text tId tCa).content_preview =
      (parse_article text).content_preview ∧
    (task_article store text tId tCa).full_text = (parse_article text).full_text ∧
    (find_similar_articles ((parse_article text).title.getD [])
        ((parse_article text).content.getD []) (load_articles store) (mkRat 2 5) = [] →
      (task_article store text tId tCa).related_articles = some [] ∧
      (task_article store text tId tCa).content = (parse_article text).content) ∧
    (∀ e rest, find_similar_articles ((parse_article text).title.getD [])
        ((parse_article text).content.getD []) (load_articles store) (mkRat 2 5) =
          e :: rest →
      (task_article store text tId tCa).related_articles =
        some [⟨e.article.id, e.article.title, e.article.created_at, e.similarity⟩] ∧
      (task_article store text tId tCa).content =
        some ((parse_article text).content.getD [] ++ referenceText e.article)) ∧
    (task_article store text tId tCa).images =
      (if ((parse_article text).images.getD []) = [] ∧
          ¬ ((parse_article text).full_text.getD [] = []) ∧
          ¬ (taskFallbackImages ((parse_article text).full_text.getD []) = [])
        then some (taskFallbackImages ((parse_article text).full_text.getD []))
        else (parse_article text).images) :=
  ⟨rfl, task_article_id store text tId tCa,
    task_article_created_at store text tId tCa,
    task_article_title store text tId tCa,
    task_article_sources store text tId tCa,
    task_article_topics store text tId tCa,
    task_article_preview store text tId tCa,
    task_article_full_text store text tId tCa,
    fun h => task_article_nil_similar store text tId tCa h,
    fun e rest h => task_article_cons_similar store text tId tCa e rest h,
    task_article_images_eq store text tId tCa⟩

/-- C2 witness: on an empty store no similar article exists, so the
persisted content is the parsed content and the related list is empty. -/
theorem c2_witness :
    (task_article [] c2txt wit0 wit0).related_articles = some [] ∧
    (task_article [] c2txt wit0 wit0).content = (parse_article c2txt).content :=
  (c2_pipeline_shape [] c2txt wit0 wit0).2.2.2.2.2.2.2.2.1 (by decide)

/-- C2 counterexample: for this crew output `parse_article` returns no
images, yet the persisted row carries the image URL re-extracted from the
full text, so the persisted article is not `parse_article`'s output merely
augmented with id, created_at, related_articles and the reference note. -/
theorem c2_counterexample :
    (parse_article c2txt).images = some [] ∧
    (generate_article_task [] c2txt wit0 wit0).map (fun r => r.images) =
      [[lit "https://news.example.com/media/chart123"]] ∧
    ¬ (generate_article_task [] c2txt wit0 wit0 =
      [⟨fmtTS wit0, (parse_article c2txt).title.getD [],
        (parse_article c2txt).content.getD [],
        (parse_article c2txt).content_preview.getD [],
        (parse_article c2txt).full_text.getD [],
        fmtISO wit0,
        (parse_article c2txt).sources.getD [],
        (parse_article c2txt).images.getD [],
        (parse_article c2txt).topics.getD [],
        []⟩]) := by
  refine ⟨by decide, by decide, ?_⟩
  decide
